import Mathlib

/-!
# 10moons-probe: a shallow embedding of `10moons-probe.c`

The program is a straight-line sequence of libusb calls with one `cleanup`
label.  The USB access library is external, so its behaviour is a parameter
(`UsbLayer`): the value every call returns.  `probe` is embedded as a pure
function from that behaviour to the final values of its local variables
together with the chronological list of library calls made and of lines
written to `stderr`.
-/

namespace TenMoons

/-! ## The USB layer -/

/-- A `libusb_device *` of the enumerated list, identified by what
`libusb_get_bus_number` and `libusb_get_device_address` (both `uint8_t`)
report for it. -/
structure Device where
  bus_number : Nat
  device_address : Nat
deriving DecidableEq, Repr

/-- A pointer variable holding a resource (`libusb_context *`,
`libusb_device **`, `libusb_device_handle *`): `NULL` or the object the
library handed out. -/
inductive Ptr where
  | NULL
  | object
deriving DecidableEq, Repr

/-- The value of `LIBUSB_ERROR_NOT_FOUND` in `libusb.h`. -/
def LIBUSB_ERROR_NOT_FOUND : Int := -5

/-- Behaviour of the USB library during one run of `probe`: the return value
of each call.  `probe` calls every function at most once, except
`libusb_control_transfer`, whose return value is given per call, numbered
from 0 in the order the calls are made.  `dev_list` holds the entries of the
array that `libusb_get_device_list` stores in `*list`; only the entries below
the returned count are ever read.  `libusb_strerror` is the library function,
or the fallback of the source file when `HAVE_LIBUSB_STRERROR` is not defined
in `config.h`.

As in libusb, `libusb_init`, `libusb_get_device_list` and `libusb_open` store
an object through their output pointer when they succeed and leave it alone
when they fail.  The return values are error codes or counts that fit `int`,
so the conversion to `enum libusb_error` in `LIBUSB_GUARD` keeps them.  The
getters `libusb_get_bus_number` and `libusb_get_device_address` cannot fail
and are not recorded as events. -/
structure UsbLayer where
  libusb_init : Int
  libusb_get_device_list : Int
  dev_list : Nat → Device
  libusb_open : Device → Int
  libusb_set_auto_detach_kernel_driver : Int
  libusb_claim_interface : Int
  libusb_detach_kernel_driver : Int
  libusb_control_transfer : Nat → Int
  libusb_strerror : Int → String

/-- What a run does that is visible from outside: the library calls with
their arguments, and the lines written to `stderr`.  The release functions
record whether their pointer argument was `NULL`. -/
inductive Event where
  | libusb_init
  | libusb_get_device_list
  | libusb_open (dev : Device)
  | libusb_free_device_list (list : Ptr) (unref_devices : Bool)
  | libusb_set_auto_detach_kernel_driver (enable : Int)
  | libusb_claim_interface (interface_number : Nat)
  | libusb_detach_kernel_driver (interface_number : Nat)
  | libusb_control_transfer (bmRequestType bRequest wValue wIndex : Nat)
      (data : List Nat) (wLength : Nat) (timeout : Nat)
  | libusb_release_interface (interface_number : Nat)
  | libusb_close (handle : Ptr)
  | libusb_exit (ctx : Ptr)
  | stderr (text : String)
deriving DecidableEq, Repr

/-! ## `probe` -/

/-- The local variables of `probe` that outlive a statement, and the events
so far.  `dev` is `none` while the C variable is uninitialised. -/
structure ProbeState where
  result : Int
  ctx : Ptr
  dev_list : Ptr
  dev : Option Device
  handle : Ptr
  claimed : Bool
  i : Nat
  trace : List Event
deriving DecidableEq, Repr

/-- The initialisers of the declarations at the top of `probe`. -/
def ProbeState.initial : ProbeState :=
  { result := 1, ctx := Ptr.NULL, dev_list := Ptr.NULL, dev := none,
    handle := Ptr.NULL, claimed := false, i := 0, trace := [] }

/-- Append an event to the trace. -/
def ProbeState.log (s : ProbeState) (e : Event) : ProbeState :=
  { s with trace := s.trace ++ [e] }

/-- `GENERIC_ERROR(fmt)`: one line on `stderr`. -/
def GENERIC_ERROR (s : ProbeState) (msg : String) : ProbeState :=
  s.log (Event.stderr (msg ++ "\n"))

/-- `GENERIC_FAILURE(fmt)`: the message prefixed with `Failed to `. -/
def GENERIC_FAILURE (s : ProbeState) (msg : String) : ProbeState :=
  GENERIC_ERROR s ("Failed to " ++ msg)

/-- `LIBUSB_FAILURE(err, fmt)`: the action followed by the description of the
error code. -/
def LIBUSB_FAILURE (usb : UsbLayer) (s : ProbeState) (err : Int) (msg : String) :
    ProbeState :=
  GENERIC_FAILURE s (msg ++ ": " ++ usb.libusb_strerror err)

/-- `LIBUSB_GUARD(expr, fmt)`, with `err` the value of `expr` and `s` the
state after evaluating it: a negative `err` reports and jumps to `cleanup`
(the state is returned as it is at the label), otherwise the rest of the
function body `k` runs. -/
def LIBUSB_GUARD (usb : UsbLayer) (s : ProbeState) (err : Int) (msg : String)
    (k : ProbeState → ProbeState) : ProbeState :=
  if err < 0 then LIBUSB_FAILURE usb s err msg else k s

/-- The `for` loop of `probe`, entered with `remaining = dev_num - i`: it
stops at the first index whose device has the wanted bus number and address,
or at `dev_num`.  Returns the final `i` and `dev`. -/
def scan_devices (usb : UsbLayer) (bus_num dev_addr : Nat) :
    (remaining : Nat) → (i : Nat) → (dev : Option Device) → Nat × Option Device
  | 0, i, dev => (i, dev)
  | remaining + 1, i, _ =>
    let dev := usb.dev_list i
    if dev.bus_number = bus_num ∧ dev.device_address = dev_addr then
      (i, some dev)
    else
      scan_devices usb bus_num dev_addr remaining (i + 1) (some dev)

/-- `SET_REPORT(wValue, bytes...)`: one control transfer, guarded; `i` is
incremented after a successful transfer.  The transfer is the `i`-th call of
`libusb_control_transfer` of the run. -/
def SET_REPORT (usb : UsbLayer) (s : ProbeState) (wValue : Nat) (report : List Nat)
    (k : ProbeState → ProbeState) : ProbeState :=
  let s1 := s.log (Event.libusb_control_transfer 0x21 9 wValue 2 report report.length 250)
  LIBUSB_GUARD usb s1 (usb.libusb_control_transfer s.i) ("set report #" ++ toString s.i)
    (fun s2 => k { s2 with i := s2.i + 1 })

/-- The body of `probe` from its first statement to the label `cleanup`:
returns the state in which the label is reached. -/
def probe_body (usb : UsbLayer) (bus_num dev_addr : Nat) : ProbeState :=
  let s := ProbeState.initial
  -- LIBUSB_GUARD(libusb_init(&ctx), "initialize libusb");
  let s := s.log Event.libusb_init
  let s := if usb.libusb_init < 0 then s else { s with ctx := Ptr.object }
  LIBUSB_GUARD usb s usb.libusb_init "initialize libusb" fun s =>
  -- LIBUSB_GUARD(dev_num = libusb_get_device_list(ctx, &dev_list), "get device list");
  let dev_num := usb.libusb_get_device_list
  let s := s.log Event.libusb_get_device_list
  let s := if dev_num < 0 then s else { s with dev_list := Ptr.object }
  LIBUSB_GUARD usb s dev_num "get device list" fun s =>
  -- for (i = 0; i < (size_t)dev_num; i++) ...
  let found := scan_devices usb bus_num dev_addr dev_num.toNat 0 s.dev
  let s := { s with i := found.1, dev := found.2 }
  -- if (i == (size_t)dev_num) ERROR_CLEANUP("Device not found");
  if s.i = dev_num.toNat then GENERIC_ERROR s "Device not found" else
  -- LIBUSB_GUARD(libusb_open(dev, &handle), "open device");
  -- (the loop stopped at a device, so `dev` is set: see `scan_devices_spec`)
  match s.dev with
  | none => s
  | some dev =>
  let s := s.log (Event.libusb_open dev)
  let s := if usb.libusb_open dev < 0 then s else { s with handle := Ptr.object }
  LIBUSB_GUARD usb s (usb.libusb_open dev) "open device" fun s =>
  -- libusb_free_device_list(dev_list, true); dev_list = NULL;
  let s := s.log (Event.libusb_free_device_list s.dev_list true)
  let s := { s with dev_list := Ptr.NULL }
  -- LIBUSB_GUARD(libusb_set_auto_detach_kernel_driver(handle, 2), ...);
  let s := s.log (Event.libusb_set_auto_detach_kernel_driver 2)
  LIBUSB_GUARD usb s usb.libusb_set_auto_detach_kernel_driver
    "enable interface auto-detaching" fun s =>
  -- LIBUSB_GUARD(libusb_claim_interface(handle, 2), "claim interface");
  let s := s.log (Event.libusb_claim_interface 2)
  LIBUSB_GUARD usb s usb.libusb_claim_interface "claim interface" fun s =>
  -- rc = libusb_detach_kernel_driver(handle, 2);
  let rc := usb.libusb_detach_kernel_driver
  let s := s.log (Event.libusb_detach_kernel_driver 2)
  if rc ≠ 0 ∧ rc ≠ LIBUSB_ERROR_NOT_FOUND then
    LIBUSB_FAILURE usb s rc "detach kernel driver"
  else
  -- i = 0;
  let s := { s with i := 0 }
  SET_REPORT usb s 0x0308 [0x08, 0x04, 0x1d, 0x01, 0xff, 0xff, 0x06, 0x2e] fun s =>
  SET_REPORT usb s 0x0308 [0x08, 0x03, 0x00, 0xff, 0xf0, 0x00, 0xff, 0xf0] fun s =>
  SET_REPORT usb s 0x0308 [0x08, 0x06, 0x01, 0x00, 0x00, 0x00, 0x00, 0x00] fun s =>
  SET_REPORT usb s 0x0308 [0x08, 0x03, 0x00, 0xff, 0xf0, 0x00, 0xff, 0xf0] fun s =>
  -- result = 0;
  { s with result := 0 }

/-- The statements after the label `cleanup`, up to the `return`. -/
def cleanup (s : ProbeState) : ProbeState :=
  let s := if s.claimed then s.log (Event.libusb_release_interface 2) else s
  let s := s.log (Event.libusb_close s.handle)
  let s := s.log (Event.libusb_free_device_list s.dev_list true)
  s.log (Event.libusb_exit s.ctx)

/-- The function `probe`: its final state; `result` is the value returned. -/
def probe (usb : UsbLayer) (bus_num dev_addr : Nat) : ProbeState :=
  cleanup (probe_body usb bus_num dev_addr)

/-! ## `main` -/

/-- The C library's `isspace` in the C locale: space, and `\t \n \v \f \r`
(codes 9 to 13). -/
def isspace (c : Char) : Bool :=
  c.toNat = 32 || (9 ≤ c.toNat && c.toNat ≤ 13)

/-- The C library's `isdigit`: the characters `0` to `9` (codes 48 to 57). -/
def isdigit (c : Char) : Bool :=
  48 ≤ c.toNat && c.toNat ≤ 57

/-- Drop the leading white space, as `atoi` does first. -/
def skip_space : List Char → List Char
  | [] => []
  | c :: cs => if isspace c then skip_space cs else c :: cs

/-- Read the longest run of decimal digits at the front, accumulating its
value on top of `acc`. -/
def parse_digits : List Char → Nat → Nat
  | [], acc => acc
  | c :: cs, acc => if isdigit c then parse_digits cs (10 * acc + (c.toNat - 48)) else acc

/-- The smallest `int` (32 bits). -/
def INT_MIN : Int := -2147483648

/-- The largest `int` (32 bits). -/
def INT_MAX : Int := 2147483647

/-- The C library's `atoi`: skip white space, take an optional sign, read
decimal digits up to the first other character; no digits give 0.  The C
standard leaves the behaviour undefined when the value is not representable
as an `int`: that is `none`. -/
def atoi (nptr : String) : Option Int :=
  let cs := skip_space nptr.toList
  let v : Int :=
    match cs with
    | [] => 0
    | c :: rest =>
      if c = '-' then -(parse_digits rest 0 : Int)
      else if c = '+' then (parse_digits rest 0 : Int)
      else (parse_digits cs 0 : Int)
  if INT_MIN ≤ v ∧ v ≤ INT_MAX then some v else none

/-- The conversion `(uint8_t)x` of an `int`: reduction modulo 256. -/
def to_uint8 (x : Int) : Nat := (x % 256).toNat

/-- The argument expression `(uint8_t)atoi(text)` of the call of `probe` in
`main`. -/
def probe_arg (text : String) : Option Nat := (atoi text).map to_uint8

/-- The C library's `rindex(s, c)` for a `c` other than the terminator: the
part of `s` from the last occurrence of `c` on, `none` (a null pointer) when
`c` does not occur. -/
def rindex : List Char → Char → Option (List Char)
  | [], _ => none
  | x :: xs, c =>
    match rindex xs c with
    | some p => some p
    | none => if x = c then some (x :: xs) else none

/-- The first statements of `main`: `name` is `argv[0]` when it has no `/`,
and what follows its last `/` otherwise. -/
def program_name (argv0 : String) : String :=
  match rindex argv0.toList '/' with
  | none => argv0
  | some p => String.mk p.tail

/-- The text `usage` prints for the program name `name`. -/
def usage (name : String) : String :=
  "Usage: " ++ name ++ " BUS_NUM DEV_ADDR\n" ++
  "Probe a 10moons tablet.\n" ++
  "\n" ++
  "Arguments:\n" ++
  "    BUS_NUM    Bus number.\n" ++
  "    DEV_ADDR   Device address.\n" ++
  "\n"

/-- What a run of `main` does: the exit status of the process, the events in
order (one `stderr` event per `fprintf`), and the arguments `probe` was called
with, `none` when it was not called. -/
structure MainResult where
  status : Int
  trace : List Event
  probe_args : Option (Nat × Nat)
deriving DecidableEq, Repr

/-- The function `main`, with `argv` the argument strings and
`argc = argv.length` (`argv[argc]` is a null pointer).  `none` is undefined
behaviour: `rindex` on the null pointer `argv[0]` when `argc` is 0, or `atoi`
on a number that does not fit `int`. -/
def main (usb : UsbLayer) (argv : List String) : Option MainResult :=
  -- name = rindex(argv[0], '/');
  match argv with
  | [] => none
  | argv0 :: _ =>
    let name := program_name argv0
    -- if (argc != 3) { fprintf(stderr, ...); usage(stderr, name); exit(1); }
    if argv.length ≠ 3 then
      some { status := 1,
             trace := [Event.stderr "Invalid number of arguments\n",
                       Event.stderr (usage name)],
             probe_args := none }
    else
      -- setbuf(stdout, NULL); return probe((uint8_t)atoi(argv[1]), (uint8_t)atoi(argv[2]));
      match probe_arg (argv.getD 1 ""), probe_arg (argv.getD 2 "") with
      | some bus_num, some dev_addr =>
        let s := probe usb bus_num dev_addr
        some { status := s.result, trace := s.trace, probe_args := some (bus_num, dev_addr) }
      | _, _ => none

/-! ## Observations on a run -/

/-- The `libusb_control_transfer` calls of a trace, in order. -/
def control_transfers (t : List Event) : List Event :=
  t.filter fun e =>
    match e with
    | Event.libusb_control_transfer _ _ _ _ _ _ _ => true
    | _ => false

/-- The texts written to `stderr` in a trace, in order. -/
def stderr_lines (t : List Event) : List String :=
  t.filterMap fun e =>
    match e with
    | Event.stderr text => some text
    | _ => none

/-- The calls that talk to the device: open, claim, detach and control
transfer. -/
def Event.is_device_call : Event → Bool
  | Event.libusb_open _ => true
  | Event.libusb_claim_interface _ => true
  | Event.libusb_detach_kernel_driver _ => true
  | Event.libusb_control_transfer _ _ _ _ _ _ _ => true
  | _ => false

/-- The enumerated list has a device with the given bus number and address:
some entry below the count `libusb_get_device_list` returned. -/
def device_listed (usb : UsbLayer) (bus_num dev_addr : Nat) : Prop :=
  ∃ j, j < usb.libusb_get_device_list.toNat ∧ usb.dev_list j = ⟨bus_num, dev_addr⟩

/-- Every step before the control transfers succeeded: the guarded calls
returned no negative value, the device is in the list, and the detach
returned 0 or `LIBUSB_ERROR_NOT_FOUND`. -/
def reaches_transfers (usb : UsbLayer) (bus_num dev_addr : Nat) : Prop :=
  0 ≤ usb.libusb_init ∧ 0 ≤ usb.libusb_get_device_list ∧
  device_listed usb bus_num dev_addr ∧
  0 ≤ usb.libusb_open ⟨bus_num, dev_addr⟩ ∧
  0 ≤ usb.libusb_set_auto_detach_kernel_driver ∧
  0 ≤ usb.libusb_claim_interface ∧
  (usb.libusb_detach_kernel_driver = 0 ∨
    usb.libusb_detach_kernel_driver = LIBUSB_ERROR_NOT_FOUND)

/-- Every step of the run succeeded, the four control transfers included. -/
def all_succeed (usb : UsbLayer) (bus_num dev_addr : Nat) : Prop :=
  reaches_transfers usb bus_num dev_addr ∧ ∀ k, k < 4 → 0 ≤ usb.libusb_control_transfer k

/-- The device handle was acquired: the run got as far as `libusb_open` and
the call succeeded. -/
def handle_opened (usb : UsbLayer) (bus_num dev_addr : Nat) : Prop :=
  0 ≤ usb.libusb_init ∧ 0 ≤ usb.libusb_get_device_list ∧
  device_listed usb bus_num dev_addr ∧ 0 ≤ usb.libusb_open ⟨bus_num, dev_addr⟩

/-- The four SET_REPORT transfers of the wire protocol, in order. -/
def set_reports : List Event :=
  [Event.libusb_control_transfer 0x21 9 0x0308 2
     [0x08, 0x04, 0x1d, 0x01, 0xff, 0xff, 0x06, 0x2e] 8 250,
   Event.libusb_control_transfer 0x21 9 0x0308 2
     [0x08, 0x03, 0x00, 0xff, 0xf0, 0x00, 0xff, 0xf0] 8 250,
   Event.libusb_control_transfer 0x21 9 0x0308 2
     [0x08, 0x06, 0x01, 0x00, 0x00, 0x00, 0x00, 0x00] 8 250,
   Event.libusb_control_transfer 0x21 9 0x0308 2
     [0x08, 0x03, 0x00, 0xff, 0xf0, 0x00, 0xff, 0xf0] 8 250]

/-- The calls of a run that got past the kernel driver detach, up to that
call. -/
def calls_before_transfers (dev : Device) : List Event :=
  [Event.libusb_init, Event.libusb_get_device_list, Event.libusb_open dev,
   Event.libusb_free_device_list Ptr.object true,
   Event.libusb_set_auto_detach_kernel_driver 2, Event.libusb_claim_interface 2,
   Event.libusb_detach_kernel_driver 2]

/-- The diagnostic of a failed USB call: `Failed to <action>: <reason>`. -/
def failure_line (usb : UsbLayer) (action : String) (err : Int) : String :=
  "Failed to " ++ (action ++ ": " ++ usb.libusb_strerror err) ++ "\n"

/-- The trace of a run in which a USB call failed: the calls made, the
diagnostic, and the three calls of the cleanup with their arguments. -/
def failure_trace (usb : UsbLayer) (calls : List Event) (action : String) (err : Int)
    (handle list ctx : Ptr) : List Event :=
  calls ++ [Event.stderr (failure_line usb action err), Event.libusb_close handle,
    Event.libusb_free_device_list list true, Event.libusb_exit ctx]

/-- A USB layer in which every call succeeds: two devices are attached, the
second one at bus 1, address 2, no kernel driver is bound, and every control
transfer moves all 8 bytes. -/
def usb_sample : UsbLayer :=
  { libusb_init := 0,
    libusb_get_device_list := 2,
    dev_list := fun j => if j = 0 then ⟨1, 1⟩ else ⟨1, 2⟩,
    libusb_open := fun _ => 0,
    libusb_set_auto_detach_kernel_driver := 0,
    libusb_claim_interface := 0,
    libusb_detach_kernel_driver := LIBUSB_ERROR_NOT_FOUND,
    libusb_control_transfer := fun _ => 8,
    libusb_strerror := fun _ => "Other error" }

/-- The three resources `probe` acquires and has to give back. -/
inductive Resource where
  | context
  | device_list
  | handle
deriving DecidableEq, Repr

/-- The resource a call releases: `libusb_exit`, `libusb_free_device_list`
and `libusb_close` on a pointer that is not `NULL`.  On `NULL` the three calls
release nothing. -/
def Event.released : Event → Option Resource
  | Event.libusb_exit Ptr.object => some Resource.context
  | Event.libusb_free_device_list Ptr.object _ => some Resource.device_list
  | Event.libusb_close Ptr.object => some Resource.handle
  | _ => none

/-- How many times a trace releases the resource `r`. -/
def release_count (r : Resource) (t : List Event) : Nat :=
  t.countP fun e => e.released = some r

/-- A USB layer like `usb_sample` in which every control transfer is short:
call `k` moves `k` bytes of the 8. -/
def usb_short : UsbLayer :=
  { usb_sample with libusb_control_transfer := fun k => (k : Int) }

/-- A USB layer like `usb_sample` in which the third control transfer fails
with `LIBUSB_ERROR_IO` (-1). -/
def usb_fail2 : UsbLayer :=
  { usb_sample with libusb_control_transfer := fun k => if k = 2 then -1 else 8 }

/-- The number a run of decimal digits denotes, read from the left. -/
def decimal_value (ds : List Char) : Nat :=
  ds.foldl (fun a c => 10 * a + (c.toNat - 48)) 0

/-- The number denoted by a sign (nothing, `-` or `+`) followed by the decimal
digits `ds`. -/
def signed_value (sign ds : List Char) : Int :=
  if sign = ['-'] then -(decimal_value ds : Int) else (decimal_value ds : Int)

/-! ## The device scan -/

theorem scan_devices_spec (usb : UsbLayer) (bus_num dev_addr : Nat) :
    ∀ (n i : Nat) (d : Option Device),
      ((scan_devices usb bus_num dev_addr n i d).1 = i + n ∧
        ∀ j, i ≤ j → j < i + n → usb.dev_list j ≠ ⟨bus_num, dev_addr⟩) ∨
      ((scan_devices usb bus_num dev_addr n i d).1 < i + n ∧
        (scan_devices usb bus_num dev_addr n i d).2 = some ⟨bus_num, dev_addr⟩ ∧
        ∃ j, i ≤ j ∧ j < i + n ∧ usb.dev_list j = ⟨bus_num, dev_addr⟩) := by
  intro n
  induction n with
  | zero =>
    intro i d
    left
    refine ⟨rfl, ?_⟩
    intro j h1 h2
    omega
  | succ n ih =>
    intro i d
    by_cases hm : (usb.dev_list i).bus_number = bus_num ∧
        (usb.dev_list i).device_address = dev_addr
    · right
      have hd : usb.dev_list i = ⟨bus_num, dev_addr⟩ := by
        cases hdev : usb.dev_list i with
        | mk b a =>
          rw [hdev] at hm
          simp only at hm
          rw [hm.1, hm.2]
      simp only [scan_devices, hm, and_self, if_true]
      exact ⟨by omega, congrArg some hd, i, le_refl i, by omega, hd⟩
    · have hd : usb.dev_list i ≠ ⟨bus_num, dev_addr⟩ := by
        intro h
        apply hm
        rw [h]
        exact ⟨rfl, rfl⟩
      simp only [scan_devices, hm, if_false]
      rcases ih (i + 1) (some (usb.dev_list i)) with ⟨h1, h2⟩ | ⟨h1, h2, j, h3, h4, h5⟩
      · left
        refine ⟨by omega, ?_⟩
        intro j hj1 hj2
        by_cases hji : j = i
        · rw [hji]; exact hd
        · exact h2 j (by omega) (by omega)
      · right
        exact ⟨by omega, h2, j, by omega, by omega, h5⟩

theorem scan_devices_listed (usb : UsbLayer) (bus_num dev_addr : Nat) (d : Option Device)
    (h : device_listed usb bus_num dev_addr) :
    (scan_devices usb bus_num dev_addr usb.libusb_get_device_list.toNat 0 d).1 ≠
        usb.libusb_get_device_list.toNat ∧
      (scan_devices usb bus_num dev_addr usb.libusb_get_device_list.toNat 0 d).2 =
        some ⟨bus_num, dev_addr⟩ := by
  obtain ⟨j, hj, hdev⟩ := h
  rcases scan_devices_spec usb bus_num dev_addr usb.libusb_get_device_list.toNat 0 d with
    ⟨_, h2⟩ | ⟨h1, h2, _⟩
  · exact absurd hdev (h2 j (Nat.zero_le j) (by omega))
  · exact ⟨by omega, h2⟩

theorem scan_devices_not_listed (usb : UsbLayer) (bus_num dev_addr : Nat) (d : Option Device)
    (h : ¬ device_listed usb bus_num dev_addr) :
    (scan_devices usb bus_num dev_addr usb.libusb_get_device_list.toNat 0 d).1 =
        usb.libusb_get_device_list.toNat := by
  rcases scan_devices_spec usb bus_num dev_addr usb.libusb_get_device_list.toNat 0 d with
    ⟨h1, _⟩ | ⟨_, _, j, _, hj, hdev⟩
  · omega
  · exact absurd ⟨j, by omega, hdev⟩ h

/-! ## Every run of `probe`, case by case -/

theorem probe_cases (usb : UsbLayer) (bus_num dev_addr : Nat) :
    (usb.libusb_init < 0 ∧
      (probe usb bus_num dev_addr).result = 1 ∧
      (probe usb bus_num dev_addr).trace =
        failure_trace usb [Event.libusb_init] "initialize libusb" usb.libusb_init
          Ptr.NULL Ptr.NULL Ptr.NULL) ∨
    (0 ≤ usb.libusb_init ∧ usb.libusb_get_device_list < 0 ∧
      (probe usb bus_num dev_addr).result = 1 ∧
      (probe usb bus_num dev_addr).trace =
        failure_trace usb [Event.libusb_init, Event.libusb_get_device_list]
          "get device list" usb.libusb_get_device_list Ptr.NULL Ptr.NULL Ptr.object) ∨
    (0 ≤ usb.libusb_init ∧ 0 ≤ usb.libusb_get_device_list ∧
      ¬ device_listed usb bus_num dev_addr ∧
      (probe usb bus_num dev_addr).result = 1 ∧
      (probe usb bus_num dev_addr).trace =
        [Event.libusb_init, Event.libusb_get_device_list,
         Event.stderr "Device not found\n", Event.libusb_close Ptr.NULL,
         Event.libusb_free_device_list Ptr.object true, Event.libusb_exit Ptr.object]) ∨
    (0 ≤ usb.libusb_init ∧ 0 ≤ usb.libusb_get_device_list ∧
      device_listed usb bus_num dev_addr ∧ usb.libusb_open ⟨bus_num, dev_addr⟩ < 0 ∧
      (probe usb bus_num dev_addr).result = 1 ∧
      (probe usb bus_num dev_addr).trace =
        failure_trace usb
          [Event.libusb_init, Event.libusb_get_device_list,
           Event.libusb_open ⟨bus_num, dev_addr⟩]
          "open device" (usb.libusb_open ⟨bus_num, dev_addr⟩)
          Ptr.NULL Ptr.object Ptr.object) ∨
    (handle_opened usb bus_num dev_addr ∧ usb.libusb_set_auto_detach_kernel_driver < 0 ∧
      (probe usb bus_num dev_addr).result = 1 ∧
      (probe usb bus_num dev_addr).trace =
        failure_trace usb ((calls_before_transfers ⟨bus_num, dev_addr⟩).take 5)
          "enable interface auto-detaching" usb.libusb_set_auto_detach_kernel_driver
          Ptr.object Ptr.NULL Ptr.object) ∨
    (handle_opened usb bus_num dev_addr ∧ 0 ≤ usb.libusb_set_auto_detach_kernel_driver ∧
      usb.libusb_claim_interface < 0 ∧
      (probe usb bus_num dev_addr).result = 1 ∧
      (probe usb bus_num dev_addr).trace =
        failure_trace usb ((calls_before_transfers ⟨bus_num, dev_addr⟩).take 6)
          "claim interface" usb.libusb_claim_interface
          Ptr.object Ptr.NULL Ptr.object) ∨
    (handle_opened usb bus_num dev_addr ∧ 0 ≤ usb.libusb_set_auto_detach_kernel_driver ∧
      0 ≤ usb.libusb_claim_interface ∧
      usb.libusb_detach_kernel_driver ≠ 0 ∧
      usb.libusb_detach_kernel_driver ≠ LIBUSB_ERROR_NOT_FOUND ∧
      (probe usb bus_num dev_addr).result = 1 ∧
      (probe usb bus_num dev_addr).trace =
        failure_trace usb (calls_before_transfers ⟨bus_num, dev_addr⟩)
          "detach kernel driver" usb.libusb_detach_kernel_driver
          Ptr.object Ptr.NULL Ptr.object) ∨
    (reaches_transfers usb bus_num dev_addr ∧
      (∃ k, k < 4 ∧ (∀ j, j < k → 0 ≤ usb.libusb_control_transfer j) ∧
        usb.libusb_control_transfer k < 0 ∧
        (probe usb bus_num dev_addr).result = 1 ∧
        (probe usb bus_num dev_addr).trace =
          failure_trace usb
            (calls_before_transfers ⟨bus_num, dev_addr⟩ ++ set_reports.take (k + 1))
            ("set report #" ++ toString k) (usb.libusb_control_transfer k)
            Ptr.object Ptr.NULL Ptr.object)) ∨
    (all_succeed usb bus_num dev_addr ∧
      (probe usb bus_num dev_addr).result = 0 ∧
      (probe usb bus_num dev_addr).trace =
        calls_before_transfers ⟨bus_num, dev_addr⟩ ++ set_reports ++
          [Event.libusb_close Ptr.object, Event.libusb_free_device_list Ptr.NULL true,
           Event.libusb_exit Ptr.object]) := by
  by_cases h1 : usb.libusb_init < 0
  · left
    simp [probe, probe_body, cleanup, LIBUSB_GUARD, LIBUSB_FAILURE, GENERIC_FAILURE,
      GENERIC_ERROR, ProbeState.log, ProbeState.initial, failure_trace, failure_line, h1]
  right
  by_cases h2 : usb.libusb_get_device_list < 0
  · left
    simp [probe, probe_body, cleanup, LIBUSB_GUARD, LIBUSB_FAILURE, GENERIC_FAILURE,
      GENERIC_ERROR, ProbeState.log, ProbeState.initial, failure_trace, failure_line, h1, h2]
    exact not_lt.mp h1
  right
  by_cases h3 : device_listed usb bus_num dev_addr
  swap
  · left
    have hs := scan_devices_not_listed usb bus_num dev_addr none h3
    simp [probe, probe_body, cleanup, LIBUSB_GUARD, LIBUSB_FAILURE, GENERIC_FAILURE,
      GENERIC_ERROR, ProbeState.log, ProbeState.initial, h1, h2, hs, h3]
    exact ⟨not_lt.mp h1, not_lt.mp h2⟩
  right
  obtain ⟨hs1, hs2⟩ := scan_devices_listed usb bus_num dev_addr none h3
  by_cases h4 : usb.libusb_open ⟨bus_num, dev_addr⟩ < 0
  · left
    simp [probe, probe_body, cleanup, LIBUSB_GUARD, LIBUSB_FAILURE, GENERIC_FAILURE,
      GENERIC_ERROR, ProbeState.log, ProbeState.initial, failure_trace, failure_line,
      h1, h2, hs1, hs2, h3, h4]
    exact ⟨not_lt.mp h1, not_lt.mp h2⟩
  right
  have ho : handle_opened usb bus_num dev_addr :=
    ⟨not_lt.mp h1, not_lt.mp h2, h3, not_lt.mp h4⟩
  by_cases h5 : usb.libusb_set_auto_detach_kernel_driver < 0
  · left
    simp [probe, probe_body, cleanup, LIBUSB_GUARD, LIBUSB_FAILURE, GENERIC_FAILURE,
      GENERIC_ERROR, ProbeState.log, ProbeState.initial, failure_trace, failure_line,
      calls_before_transfers, h1, h2, hs1, hs2, ho, h4, h5]
  right
  by_cases h6 : usb.libusb_claim_interface < 0
  · left
    simp [probe, probe_body, cleanup, LIBUSB_GUARD, LIBUSB_FAILURE, GENERIC_FAILURE,
      GENERIC_ERROR, ProbeState.log, ProbeState.initial, failure_trace, failure_line,
      calls_before_transfers, h1, h2, hs1, hs2, ho, h4, h5, h6]
    exact not_lt.mp h5
  right
  by_cases h7 : usb.libusb_detach_kernel_driver ≠ 0 ∧
      usb.libusb_detach_kernel_driver ≠ LIBUSB_ERROR_NOT_FOUND
  · left
    simp [probe, probe_body, cleanup, LIBUSB_GUARD, LIBUSB_FAILURE, GENERIC_FAILURE,
      GENERIC_ERROR, ProbeState.log, ProbeState.initial, failure_trace, failure_line,
      calls_before_transfers, h1, h2, hs1, hs2, ho, h4, h5, h6, h7]
    exact ⟨not_lt.mp h5, not_lt.mp h6⟩
  right
  have hr : reaches_transfers usb bus_num dev_addr := by
    refine ⟨not_lt.mp h1, not_lt.mp h2, h3, not_lt.mp h4, not_lt.mp h5, not_lt.mp h6, ?_⟩
    by_cases hz : usb.libusb_detach_kernel_driver = 0
    · exact Or.inl hz
    · right
      by_contra hn
      exact h7 ⟨hz, hn⟩
  by_cases c0 : usb.libusb_control_transfer 0 < 0
  · left
    refine ⟨hr, 0, by decide, fun j hj => absurd hj (Nat.not_lt_zero j), c0, ?_⟩
    simp [probe, probe_body, cleanup, LIBUSB_GUARD, LIBUSB_FAILURE, GENERIC_FAILURE,
      GENERIC_ERROR, ProbeState.log, ProbeState.initial, failure_trace, failure_line,
      calls_before_transfers, set_reports, SET_REPORT, h1, h2, hs1, hs2, h4, h5, h6, h7, c0]
  by_cases c1 : usb.libusb_control_transfer 1 < 0
  · left
    refine ⟨hr, 1, by decide, ?_, c1, ?_⟩
    · intro j hj
      have hj0 : j = 0 := by omega
      rw [hj0]
      exact not_lt.mp c0
    simp [probe, probe_body, cleanup, LIBUSB_GUARD, LIBUSB_FAILURE, GENERIC_FAILURE,
      GENERIC_ERROR, ProbeState.log, ProbeState.initial, failure_trace, failure_line,
      calls_before_transfers, set_reports, SET_REPORT, h1, h2, hs1, hs2, h4, h5, h6, h7,
      c0, c1]
  by_cases c2 : usb.libusb_control_transfer 2 < 0
  · left
    refine ⟨hr, 2, by decide, ?_, c2, ?_⟩
    · intro j hj
      have hj0 : j = 0 ∨ j = 1 := by omega
      rcases hj0 with hj0 | hj0 <;> rw [hj0]
      · exact not_lt.mp c0
      · exact not_lt.mp c1
    simp [probe, probe_body, cleanup, LIBUSB_GUARD, LIBUSB_FAILURE, GENERIC_FAILURE,
      GENERIC_ERROR, ProbeState.log, ProbeState.initial, failure_trace, failure_line,
      calls_before_transfers, set_reports, SET_REPORT, h1, h2, hs1, hs2, h4, h5, h6, h7,
      c0, c1, c2]
  by_cases c3 : usb.libusb_control_transfer 3 < 0
  · left
    refine ⟨hr, 3, by decide, ?_, c3, ?_⟩
    · intro j hj
      have hj0 : j = 0 ∨ j = 1 ∨ j = 2 := by omega
      rcases hj0 with hj0 | hj0 | hj0 <;> rw [hj0]
      · exact not_lt.mp c0
      · exact not_lt.mp c1
      · exact not_lt.mp c2
    simp [probe, probe_body, cleanup, LIBUSB_GUARD, LIBUSB_FAILURE, GENERIC_FAILURE,
      GENERIC_ERROR, ProbeState.log, ProbeState.initial, failure_trace, failure_line,
      calls_before_transfers, set_reports, SET_REPORT, h1, h2, hs1, hs2, h4, h5, h6, h7,
      c0, c1, c2, c3]
  right
  refine ⟨⟨hr, ?_⟩, ?_⟩
  · intro k hk
    have hk0 : k = 0 ∨ k = 1 ∨ k = 2 ∨ k = 3 := by omega
    rcases hk0 with hk0 | hk0 | hk0 | hk0 <;> rw [hk0]
    · exact not_lt.mp c0
    · exact not_lt.mp c1
    · exact not_lt.mp c2
    · exact not_lt.mp c3
  simp [probe, probe_body, cleanup, LIBUSB_GUARD, LIBUSB_FAILURE, GENERIC_FAILURE,
    GENERIC_ERROR, ProbeState.log, ProbeState.initial,
    calls_before_transfers, set_reports, SET_REPORT, h1, h2, hs1, hs2, h4, h5, h6, h7,
    c0, c1, c2, c3]

theorem probe_of_all_succeed (usb : UsbLayer) (bus_num dev_addr : Nat)
    (h : all_succeed usb bus_num dev_addr) :
    (probe usb bus_num dev_addr).result = 0 ∧
      (probe usb bus_num dev_addr).trace =
        calls_before_transfers ⟨bus_num, dev_addr⟩ ++ set_reports ++
          [Event.libusb_close Ptr.object, Event.libusb_free_device_list Ptr.NULL true,
           Event.libusb_exit Ptr.object] := by
  obtain ⟨⟨h1, h2, h3, h4, h5, h6, h7⟩, h8⟩ := h
  rcases probe_cases usb bus_num dev_addr with
    ⟨c, _⟩ | ⟨_, c, _⟩ | ⟨_, _, c, _⟩ | ⟨_, _, _, c, _⟩ | ⟨_, c, _⟩ | ⟨_, _, c, _⟩ |
    ⟨_, _, _, c1, c2, _⟩ | ⟨_, k, hk, _, c, _⟩ | ⟨_, hres, htr⟩
  · omega
  · omega
  · exact absurd h3 c
  · omega
  · omega
  · omega
  · rcases h7 with h7 | h7
    · exact absurd h7 c1
    · exact absurd h7 c2
  · have := h8 k hk
    omega
  · exact ⟨hres, htr⟩

theorem probe_of_transfer_failure (usb : UsbLayer) (bus_num dev_addr : Nat)
    (hr : reaches_transfers usb bus_num dev_addr) (k : Nat) (hk : k < 4)
    (hpre : ∀ j, j < k → 0 ≤ usb.libusb_control_transfer j)
    (hfail : usb.libusb_control_transfer k < 0) :
    (probe usb bus_num dev_addr).result = 1 ∧
      (probe usb bus_num dev_addr).trace =
        failure_trace usb
          (calls_before_transfers ⟨bus_num, dev_addr⟩ ++ set_reports.take (k + 1))
          ("set report #" ++ toString k) (usb.libusb_control_transfer k)
          Ptr.object Ptr.NULL Ptr.object := by
  obtain ⟨h1, h2, h3, h4, h5, h6, h7⟩ := hr
  rcases probe_cases usb bus_num dev_addr with
    ⟨c, _⟩ | ⟨_, c, _⟩ | ⟨_, _, c, _⟩ | ⟨_, _, _, c, _⟩ | ⟨_, c, _⟩ | ⟨_, _, c, _⟩ |
    ⟨_, _, _, c1, c2, _⟩ | ⟨_, m, hm, cpre, cfail, hres, htr⟩ | ⟨⟨_, c⟩, _⟩
  · omega
  · omega
  · exact absurd h3 c
  · omega
  · omega
  · omega
  · rcases h7 with h7 | h7
    · exact absurd h7 c1
    · exact absurd h7 c2
  · have hmk : m = k := by
      rcases Nat.lt_trichotomy m k with hlt | heq | hgt
      · have := hpre m hlt
        omega
      · exact heq
      · have := cpre k hgt
        omega
    subst hmk
    exact ⟨hres, htr⟩
  · have := c k hk
    omega

theorem probe_of_not_listed (usb : UsbLayer) (bus_num dev_addr : Nat)
    (h1 : 0 ≤ usb.libusb_init) (h2 : 0 ≤ usb.libusb_get_device_list)
    (h3 : ¬ device_listed usb bus_num dev_addr) :
    (probe usb bus_num dev_addr).result = 1 ∧
      (probe usb bus_num dev_addr).trace =
        [Event.libusb_init, Event.libusb_get_device_list,
         Event.stderr "Device not found\n", Event.libusb_close Ptr.NULL,
         Event.libusb_free_device_list Ptr.object true, Event.libusb_exit Ptr.object] := by
  rcases probe_cases usb bus_num dev_addr with
    ⟨c, _⟩ | ⟨_, c, _⟩ | ⟨_, _, _, hres, htr⟩ | ⟨_, _, c, _⟩ | ⟨⟨_, _, c, _⟩, _⟩ |
    ⟨⟨_, _, c, _⟩, _⟩ | ⟨⟨_, _, c, _⟩, _⟩ | ⟨⟨_, _, c, _⟩, _⟩ | ⟨⟨⟨_, _, c, _⟩, _⟩, _⟩
  · omega
  · omega
  · exact ⟨hres, htr⟩
  all_goals exact absurd c h3

theorem probe_of_detach_failure (usb : UsbLayer) (bus_num dev_addr : Nat)
    (ho : handle_opened usb bus_num dev_addr)
    (h5 : 0 ≤ usb.libusb_set_auto_detach_kernel_driver)
    (h6 : 0 ≤ usb.libusb_claim_interface)
    (h7 : ¬ (usb.libusb_detach_kernel_driver = 0 ∨
      usb.libusb_detach_kernel_driver = LIBUSB_ERROR_NOT_FOUND)) :
    (probe usb bus_num dev_addr).result = 1 ∧
      (probe usb bus_num dev_addr).trace =
        failure_trace usb (calls_before_transfers ⟨bus_num, dev_addr⟩)
          "detach kernel driver" usb.libusb_detach_kernel_driver
          Ptr.object Ptr.NULL Ptr.object := by
  obtain ⟨h1, h2, h3, h4⟩ := ho
  rcases probe_cases usb bus_num dev_addr with
    ⟨c, _⟩ | ⟨_, c, _⟩ | ⟨_, _, c, _⟩ | ⟨_, _, _, c, _⟩ | ⟨_, c, _⟩ | ⟨_, _, c, _⟩ |
    ⟨_, _, _, _, _, hres, htr⟩ | ⟨⟨_, _, _, _, _, _, c⟩, _⟩ | ⟨⟨⟨_, _, _, _, _, _, c⟩, _⟩, _⟩
  · omega
  · omega
  · exact absurd h3 c
  · omega
  · omega
  · omega
  · exact ⟨hres, htr⟩
  · exact absurd c h7
  · exact absurd c h7

theorem probe_of_reaches_transfers (usb : UsbLayer) (bus_num dev_addr : Nat)
    (hr : reaches_transfers usb bus_num dev_addr) :
    (∃ k, k < 4 ∧ (∀ j, j < k → 0 ≤ usb.libusb_control_transfer j) ∧
      usb.libusb_control_transfer k < 0 ∧
      (probe usb bus_num dev_addr).result = 1 ∧
      (probe usb bus_num dev_addr).trace =
        failure_trace usb
          (calls_before_transfers ⟨bus_num, dev_addr⟩ ++ set_reports.take (k + 1))
          ("set report #" ++ toString k) (usb.libusb_control_transfer k)
          Ptr.object Ptr.NULL Ptr.object) ∨
    (all_succeed usb bus_num dev_addr ∧
      (probe usb bus_num dev_addr).result = 0 ∧
      (probe usb bus_num dev_addr).trace =
        calls_before_transfers ⟨bus_num, dev_addr⟩ ++ set_reports ++
          [Event.libusb_close Ptr.object, Event.libusb_free_device_list Ptr.NULL true,
           Event.libusb_exit Ptr.object]) := by
  obtain ⟨h1, h2, h3, h4, h5, h6, h7⟩ := id hr
  rcases probe_cases usb bus_num dev_addr with
    ⟨c, _⟩ | ⟨_, c, _⟩ | ⟨_, _, c, _⟩ | ⟨_, _, _, c, _⟩ | ⟨_, c, _⟩ | ⟨_, _, c, _⟩ |
    ⟨_, _, _, c1, c2, _⟩ | ⟨_, hfail⟩ | hsucc
  · omega
  · omega
  · exact absurd h3 c
  · omega
  · omega
  · omega
  · rcases h7 with h7 | h7
    · exact absurd h7 c1
    · exact absurd h7 c2
  · exact Or.inl hfail
  · exact Or.inr hsucc

/-! ## The `claimed` flag and the cleanup -/

theorem LIBUSB_GUARD_claimed (usb : UsbLayer) (s : ProbeState) (err : Int) (msg : String)
    (k : ProbeState → ProbeState) (hs : s.claimed = false)
    (hk : ∀ s2 : ProbeState, s2.claimed = false → (k s2).claimed = false) :
    (LIBUSB_GUARD usb s err msg k).claimed = false := by
  unfold LIBUSB_GUARD
  split
  · exact hs
  · exact hk s hs

theorem SET_REPORT_claimed (usb : UsbLayer) (s : ProbeState) (wValue : Nat)
    (report : List Nat) (k : ProbeState → ProbeState) (hs : s.claimed = false)
    (hk : ∀ s2 : ProbeState, s2.claimed = false → (k s2).claimed = false) :
    (SET_REPORT usb s wValue report k).claimed = false :=
  LIBUSB_GUARD_claimed usb _ _ _ _ hs (fun _ h2 => hk _ h2)

theorem probe_body_claimed (usb : UsbLayer) (bus_num dev_addr : Nat) :
    (probe_body usb bus_num dev_addr).claimed = false := by
  unfold probe_body
  refine LIBUSB_GUARD_claimed usb _ _ _ _ (by split <;> rfl) (fun s hs => ?_)
  refine LIBUSB_GUARD_claimed usb _ _ _ _ (by split <;> exact hs) (fun s hs => ?_)
  dsimp only
  split
  · exact hs
  split
  · exact hs
  refine LIBUSB_GUARD_claimed usb _ _ _ _ (by split <;> exact hs) (fun s hs => ?_)
  refine LIBUSB_GUARD_claimed usb _ _ _ _ hs (fun s hs => ?_)
  refine LIBUSB_GUARD_claimed usb _ _ _ _ hs (fun s hs => ?_)
  dsimp only
  split
  · exact hs
  refine SET_REPORT_claimed usb _ _ _ _ hs (fun s hs => ?_)
  refine SET_REPORT_claimed usb _ _ _ _ hs (fun s hs => ?_)
  refine SET_REPORT_claimed usb _ _ _ _ hs (fun s hs => ?_)
  refine SET_REPORT_claimed usb _ _ _ _ hs (fun s hs => ?_)
  exact hs

theorem probe_claimed (usb : UsbLayer) (bus_num dev_addr : Nat) :
    (probe usb bus_num dev_addr).claimed = false := by
  have h := probe_body_claimed usb bus_num dev_addr
  simp [probe, cleanup, ProbeState.log, h]

theorem failure_trace_suffix (usb : UsbLayer) (calls : List Event) (action : String)
    (err : Int) (handle list ctx : Ptr) :
    [Event.libusb_close handle, Event.libusb_free_device_list list true,
      Event.libusb_exit ctx] <:+ failure_trace usb calls action err handle list ctx :=
  ⟨calls ++ [Event.stderr (failure_line usb action err)], by simp [failure_trace]⟩

theorem failure_trace_infix (usb : UsbLayer) (calls : List Event) (action : String)
    (err : Int) (handle list ctx : Ptr) (l : List Event) (h : l <:+: calls) :
    l <:+: failure_trace usb calls action err handle list ctx := by
  obtain ⟨a, b, hab⟩ := h
  refine ⟨a, b ++ [Event.stderr (failure_line usb action err), Event.libusb_close handle,
    Event.libusb_free_device_list list true, Event.libusb_exit ctx], ?_⟩
  simp [failure_trace, ← hab]

theorem open_free_infix (dev : Device) (n : Nat) (hn : 4 ≤ n) (tail : List Event) :
    [Event.libusb_open dev, Event.libusb_free_device_list Ptr.object true] <:+:
      (calls_before_transfers dev).take n ++ tail := by
  have h5 : ∃ m, n = m + 4 := ⟨n - 4, by omega⟩
  obtain ⟨m, rfl⟩ := h5
  refine ⟨[Event.libusb_init, Event.libusb_get_device_list],
    List.take m [Event.libusb_set_auto_detach_kernel_driver 2,
      Event.libusb_claim_interface 2, Event.libusb_detach_kernel_driver 2] ++ tail, ?_⟩
  simp [calls_before_transfers]

/-! ## The claims about `probe` -/

theorem usb_sample_reaches_transfers : reaches_transfers usb_sample 1 2 :=
  ⟨by decide, by decide, ⟨1, by decide, rfl⟩, by decide, by decide, by decide,
    Or.inr rfl⟩

theorem usb_short_reaches_transfers : reaches_transfers usb_short 1 2 :=
  ⟨by decide, by decide, ⟨1, by decide, rfl⟩, by decide, by decide, by decide,
    Or.inr rfl⟩

theorem usb_fail2_reaches_transfers : reaches_transfers usb_fail2 1 2 :=
  ⟨by decide, by decide, ⟨1, by decide, rfl⟩, by decide, by decide, by decide,
    Or.inr rfl⟩

/-- C1: in a run of `probe` in which every step succeeds, the
`libusb_control_transfer` calls are exactly four, in this order and with these
payloads, each with bmRequestType 0x21, bRequest 9, wValue 0x0308, wIndex 2,
length 8 and timeout 250. -/
theorem probe_issues_four_set_reports (usb : UsbLayer) (bus_num dev_addr : Nat)
    (h : all_succeed usb bus_num dev_addr) :
    control_transfers (probe usb bus_num dev_addr).trace =
      [Event.libusb_control_transfer 0x21 9 0x0308 2
         [0x08, 0x04, 0x1d, 0x01, 0xff, 0xff, 0x06, 0x2e] 8 250,
       Event.libusb_control_transfer 0x21 9 0x0308 2
         [0x08, 0x03, 0x00, 0xff, 0xf0, 0x00, 0xff, 0xf0] 8 250,
       Event.libusb_control_transfer 0x21 9 0x0308 2
         [0x08, 0x06, 0x01, 0x00, 0x00, 0x00, 0x00, 0x00] 8 250,
       Event.libusb_control_transfer 0x21 9 0x0308 2
         [0x08, 0x03, 0x00, 0xff, 0xf0, 0x00, 0xff, 0xf0] 8 250] := by
  rw [(probe_of_all_succeed usb bus_num dev_addr h).2]
  simp [control_transfers, calls_before_transfers, set_reports]

theorem probe_issues_four_set_reports_witness :
    all_succeed usb_sample 1 2 ∧
      control_transfers (probe usb_sample 1 2).trace =
        [Event.libusb_control_transfer 0x21 9 0x0308 2
           [0x08, 0x04, 0x1d, 0x01, 0xff, 0xff, 0x06, 0x2e] 8 250,
         Event.libusb_control_transfer 0x21 9 0x0308 2
           [0x08, 0x03, 0x00, 0xff, 0xf0, 0x00, 0xff, 0xf0] 8 250,
         Event.libusb_control_transfer 0x21 9 0x0308 2
           [0x08, 0x06, 0x01, 0x00, 0x00, 0x00, 0x00, 0x00] 8 250,
         Event.libusb_control_transfer 0x21 9 0x0308 2
           [0x08, 0x03, 0x00, 0xff, 0xf0, 0x00, 0xff, 0xf0] 8 250] :=
  ⟨⟨usb_sample_reaches_transfers, fun _ _ => show (0 : Int) ≤ 8 by decide⟩,
    probe_issues_four_set_reports usb_sample 1 2
      ⟨usb_sample_reaches_transfers, fun _ _ => show (0 : Int) ≤ 8 by decide⟩⟩

/-- C2: `probe` returns 0 or 1, and it returns 0 exactly when every step
succeeded: `libusb_init`, `libusb_get_device_list`, the search for the device,
`libusb_open`, `libusb_set_auto_detach_kernel_driver`, `libusb_claim_interface`,
`libusb_detach_kernel_driver` (0 or `LIBUSB_ERROR_NOT_FOUND`) and the four
control transfers. -/
theorem probe_returns_zero_iff_all_succeed (usb : UsbLayer) (bus_num dev_addr : Nat) :
    ((probe usb bus_num dev_addr).result = 0 ∨ (probe usb bus_num dev_addr).result = 1) ∧
      ((probe usb bus_num dev_addr).result = 0 ↔ all_succeed usb bus_num dev_addr) := by
  by_cases h : all_succeed usb bus_num dev_addr
  · have hres := (probe_of_all_succeed usb bus_num dev_addr h).1
    exact ⟨Or.inl hres, fun _ => h, fun _ => hres⟩
  · have hres : (probe usb bus_num dev_addr).result = 1 := by
      rcases probe_cases usb bus_num dev_addr with
        ⟨_, c, _⟩ | ⟨_, _, c, _⟩ | ⟨_, _, _, c, _⟩ | ⟨_, _, _, _, c, _⟩ | ⟨_, _, c, _⟩ |
        ⟨_, _, _, c, _⟩ | ⟨_, _, _, _, _, c, _⟩ | ⟨_, _, _, _, _, c, _⟩ | ⟨c, _⟩
      · exact c
      · exact c
      · exact c
      · exact c
      · exact c
      · exact c
      · exact c
      · exact c
      · exact absurd c h
    refine ⟨Or.inr hres, fun h0 => ?_, fun ha => absurd ha h⟩
    rw [hres] at h0
    exact absurd h0 (by decide)

/-- C3: when `libusb_init` and `libusb_get_device_list` succeed and no
enumerated device (the list may be empty) has both the bus number `bus_num` and
the address `dev_addr`, `probe` writes `Device not found` and nothing else to
`stderr`, returns 1, and makes no open, claim, detach or control transfer
call. -/
theorem probe_device_not_found (usb : UsbLayer) (bus_num dev_addr : Nat)
    (hinit : 0 ≤ usb.libusb_init) (hlist : 0 ≤ usb.libusb_get_device_list)
    (hnone : ∀ j, j < usb.libusb_get_device_list.toNat →
      ¬ ((usb.dev_list j).bus_number = bus_num ∧
        (usb.dev_list j).device_address = dev_addr)) :
    stderr_lines (probe usb bus_num dev_addr).trace = ["Device not found\n"] ∧
      (probe usb bus_num dev_addr).result = 1 ∧
      ∀ e, e ∈ (probe usb bus_num dev_addr).trace → e.is_device_call = false := by
  have h3 : ¬ device_listed usb bus_num dev_addr := by
    rintro ⟨j, hj, hdev⟩
    apply hnone j hj
    rw [hdev]
    exact ⟨rfl, rfl⟩
  obtain ⟨hres, htr⟩ := probe_of_not_listed usb bus_num dev_addr hinit hlist h3
  rw [htr]
  refine ⟨by simp [stderr_lines], hres, ?_⟩
  intro e he
  simp only [List.mem_cons, List.mem_singleton, List.not_mem_nil, or_false] at he
  rcases he with he | he | he | he | he | he <;> rw [he] <;> rfl

theorem probe_device_not_found_witness :
    stderr_lines (probe usb_sample 1 3).trace = ["Device not found\n"] ∧
      (probe usb_sample 1 3).result = 1 ∧
      ∀ e, e ∈ (probe usb_sample 1 3).trace → e.is_device_call = false :=
  probe_device_not_found usb_sample 1 3 (by decide) (by decide) (by decide)

/-- C4: no run of `probe` ever calls `libusb_release_interface`, because
`claimed` is never set: in the run on `usb_sample`, where
`libusb_claim_interface(handle, 2)` is called and returns 0, the cleanup goes
straight to `libusb_close`. -/
theorem probe_never_releases_interface :
    (∀ (usb : UsbLayer) (bus_num dev_addr interface_number : Nat),
      (probe usb bus_num dev_addr).claimed = false ∧
      Event.libusb_release_interface interface_number ∉
        (probe usb bus_num dev_addr).trace) ∧
    usb_sample.libusb_claim_interface = 0 ∧
    (probe usb_sample 1 2).trace =
      [Event.libusb_init, Event.libusb_get_device_list, Event.libusb_open ⟨1, 2⟩,
       Event.libusb_free_device_list Ptr.object true,
       Event.libusb_set_auto_detach_kernel_driver 2, Event.libusb_claim_interface 2,
       Event.libusb_detach_kernel_driver 2] ++ set_reports ++
      [Event.libusb_close Ptr.object, Event.libusb_free_device_list Ptr.NULL true,
       Event.libusb_exit Ptr.object] := by
  refine ⟨?_, rfl, ?_⟩
  · intro usb bus_num dev_addr n
    refine ⟨probe_claimed usb bus_num dev_addr, ?_⟩
    rcases probe_cases usb bus_num dev_addr with
      ⟨_, _, htr⟩ | ⟨_, _, _, htr⟩ | ⟨_, _, _, _, htr⟩ | ⟨_, _, _, _, _, htr⟩ |
      ⟨_, _, _, htr⟩ | ⟨_, _, _, _, htr⟩ | ⟨_, _, _, _, _, _, htr⟩ |
      ⟨_, k, hk, _, _, _, htr⟩ | ⟨_, _, htr⟩
    all_goals rw [htr]
    · simp [failure_trace]
    · simp [failure_trace]
    · simp
    · simp [failure_trace]
    · simp [failure_trace, calls_before_transfers]
    · simp [failure_trace, calls_before_transfers]
    · simp [failure_trace, calls_before_transfers]
    · have hk4 : k = 0 ∨ k = 1 ∨ k = 2 ∨ k = 3 := by omega
      rcases hk4 with h | h | h | h <;> subst h <;>
        simp [failure_trace, calls_before_transfers, set_reports]
    · simp [calls_before_transfers, set_reports]
  · exact (probe_of_all_succeed usb_sample 1 2
      ⟨usb_sample_reaches_transfers, fun _ _ => show (0 : Int) ≤ 8 by decide⟩).2

/-- C5: in every run of `probe` each of the context, the device list and
the device handle is released (on a pointer that is not `NULL`) exactly once
when it was acquired and never when it was not; and after a successful
`libusb_open` the list is freed by the very next call, and the cleanup closes
the handle, frees `NULL` and exits the context. -/
theorem probe_releases_each_resource_once (usb : UsbLayer) (bus_num dev_addr : Nat) :
    (release_count Resource.context (probe usb bus_num dev_addr).trace =
      if 0 ≤ usb.libusb_init then 1 else 0) ∧
    (release_count Resource.device_list (probe usb bus_num dev_addr).trace =
      if 0 ≤ usb.libusb_init ∧ 0 ≤ usb.libusb_get_device_list then 1 else 0) ∧
    ((handle_opened usb bus_num dev_addr →
        release_count Resource.handle (probe usb bus_num dev_addr).trace = 1) ∧
      (¬ handle_opened usb bus_num dev_addr →
        release_count Resource.handle (probe usb bus_num dev_addr).trace = 0)) ∧
    (handle_opened usb bus_num dev_addr →
      [Event.libusb_open ⟨bus_num, dev_addr⟩,
        Event.libusb_free_device_list Ptr.object true] <:+:
          (probe usb bus_num dev_addr).trace ∧
      [Event.libusb_close Ptr.object, Event.libusb_free_device_list Ptr.NULL true,
        Event.libusb_exit Ptr.object] <:+ (probe usb bus_num dev_addr).trace) := by
  rcases probe_cases usb bus_num dev_addr with
    ⟨c1, _, htr⟩ | ⟨c1, c2, _, htr⟩ | ⟨c1, c2, c3, _, htr⟩ | ⟨c1, c2, c3, c4, _, htr⟩ |
    ⟨ho, _, _, htr⟩ | ⟨ho, _, _, _, htr⟩ | ⟨ho, _, _, _, _, _, htr⟩ |
    ⟨hr, k, hk, _, _, _, htr⟩ | ⟨hs, _, htr⟩
  all_goals rw [htr]
  · have hn : ¬ handle_opened usb bus_num dev_addr := fun ho => by
      have := ho.1
      omega
    simp [release_count, failure_trace, Event.released, hn, not_le.mpr c1]
  · have hn : ¬ handle_opened usb bus_num dev_addr := fun ho => by
      have := ho.2.1
      omega
    simp [release_count, failure_trace, Event.released, hn, c1, not_le.mpr c2]
  · have hn : ¬ handle_opened usb bus_num dev_addr := fun ho => c3 ho.2.2.1
    simp [release_count, Event.released, hn, c1, c2]
  · have hn : ¬ handle_opened usb bus_num dev_addr := fun ho => by
      have := ho.2.2.2
      omega
    simp [release_count, failure_trace, Event.released, hn, c1, c2]
  · obtain ⟨c1, c2, _, _⟩ := id ho
    refine ⟨?_, ?_, ?_, fun _ => ⟨?_, failure_trace_suffix _ _ _ _ _ _ _⟩⟩
    · simp [release_count, failure_trace, Event.released, calls_before_transfers, c1]
    · simp [release_count, failure_trace, Event.released, calls_before_transfers, c1, c2]
    · simp [release_count, failure_trace, Event.released, calls_before_transfers, ho]
    · exact failure_trace_infix _ _ _ _ _ _ _ _
        (by simpa using open_free_infix ⟨bus_num, dev_addr⟩ 5 (by decide) [])
  · obtain ⟨c1, c2, _, _⟩ := id ho
    refine ⟨?_, ?_, ?_, fun _ => ⟨?_, failure_trace_suffix _ _ _ _ _ _ _⟩⟩
    · simp [release_count, failure_trace, Event.released, calls_before_transfers, c1]
    · simp [release_count, failure_trace, Event.released, calls_before_transfers, c1, c2]
    · simp [release_count, failure_trace, Event.released, calls_before_transfers, ho]
    · exact failure_trace_infix _ _ _ _ _ _ _ _
        (by simpa using open_free_infix ⟨bus_num, dev_addr⟩ 6 (by decide) [])
  · obtain ⟨c1, c2, _, _⟩ := id ho
    refine ⟨?_, ?_, ?_, fun _ => ⟨?_, failure_trace_suffix _ _ _ _ _ _ _⟩⟩
    · simp [release_count, failure_trace, Event.released, calls_before_transfers, c1]
    · simp [release_count, failure_trace, Event.released, calls_before_transfers, c1, c2]
    · simp [release_count, failure_trace, Event.released, calls_before_transfers, ho]
    · exact failure_trace_infix _ _ _ _ _ _ _ _
        (by simpa [calls_before_transfers] using
          open_free_infix ⟨bus_num, dev_addr⟩ 7 (by decide) [])
  · obtain ⟨c1, c2, c3, c4, _⟩ := id hr
    have ho : handle_opened usb bus_num dev_addr := ⟨c1, c2, c3, c4⟩
    have hk4 : k = 0 ∨ k = 1 ∨ k = 2 ∨ k = 3 := by omega
    refine ⟨?_, ?_, ?_, fun _ => ⟨?_, failure_trace_suffix _ _ _ _ _ _ _⟩⟩
    · rcases hk4 with h | h | h | h <;> subst h <;>
        simp [release_count, failure_trace, Event.released, calls_before_transfers,
          set_reports, c1]
    · rcases hk4 with h | h | h | h <;> subst h <;>
        simp [release_count, failure_trace, Event.released, calls_before_transfers,
          set_reports, c1, c2]
    · rcases hk4 with h | h | h | h <;> subst h <;>
        simp [release_count, failure_trace, Event.released, calls_before_transfers,
          set_reports, ho]
    · exact failure_trace_infix _ _ _ _ _ _ _ _
        (by simpa [calls_before_transfers] using
          open_free_infix ⟨bus_num, dev_addr⟩ 7 (by decide) (set_reports.take (k + 1)))
  · obtain ⟨⟨c1, c2, c3, c4, _⟩, _⟩ := id hs
    have ho : handle_opened usb bus_num dev_addr := ⟨c1, c2, c3, c4⟩
    refine ⟨?_, ?_, ?_, fun _ => ⟨?_, ?_⟩⟩
    · simp [release_count, Event.released, calls_before_transfers, set_reports, c1]
    · simp [release_count, Event.released, calls_before_transfers, set_reports, c1, c2]
    · simp [release_count, Event.released, calls_before_transfers, set_reports, ho]
    · have h := open_free_infix ⟨bus_num, dev_addr⟩ 7 (by decide)
        (set_reports ++ [Event.libusb_close Ptr.object,
          Event.libusb_free_device_list Ptr.NULL true, Event.libusb_exit Ptr.object])
      simpa [calls_before_transfers] using h
    · exact List.suffix_append _ _


/-- C6: in a run that reaches `libusb_detach_kernel_driver(handle, 2)`, a
return value of 0 or `LIBUSB_ERROR_NOT_FOUND` lets the run go on to the first
control transfer, and any other return value ends it with no control transfer
and the result 1. -/
theorem probe_detach_not_found_proceeds (usb : UsbLayer) (bus_num dev_addr : Nat)
    (ho : handle_opened usb bus_num dev_addr)
    (hauto : 0 ≤ usb.libusb_set_auto_detach_kernel_driver)
    (hclaim : 0 ≤ usb.libusb_claim_interface) :
    Event.libusb_detach_kernel_driver 2 ∈ (probe usb bus_num dev_addr).trace ∧
    ((usb.libusb_detach_kernel_driver = 0 ∨
        usb.libusb_detach_kernel_driver = LIBUSB_ERROR_NOT_FOUND) →
      (control_transfers (probe usb bus_num dev_addr).trace).head? =
        some (Event.libusb_control_transfer 0x21 9 0x0308 2
          [0x08, 0x04, 0x1d, 0x01, 0xff, 0xff, 0x06, 0x2e] 8 250)) ∧
    (¬ (usb.libusb_detach_kernel_driver = 0 ∨
        usb.libusb_detach_kernel_driver = LIBUSB_ERROR_NOT_FOUND) →
      control_transfers (probe usb bus_num dev_addr).trace = [] ∧
      (probe usb bus_num dev_addr).result = 1) := by
  by_cases h7 : usb.libusb_detach_kernel_driver = 0 ∨
      usb.libusb_detach_kernel_driver = LIBUSB_ERROR_NOT_FOUND
  · have hr : reaches_transfers usb bus_num dev_addr :=
      ⟨ho.1, ho.2.1, ho.2.2.1, ho.2.2.2, hauto, hclaim, h7⟩
    refine ⟨?_, fun _ => ?_, fun hn => absurd h7 hn⟩
    · rcases probe_of_reaches_transfers usb bus_num dev_addr hr with
        ⟨k, _, _, _, _, htr⟩ | ⟨_, _, htr⟩
      · rw [htr]
        simp [failure_trace, calls_before_transfers]
      · rw [htr]
        simp [calls_before_transfers]
    · rcases probe_of_reaches_transfers usb bus_num dev_addr hr with
        ⟨k, _, _, _, _, htr⟩ | ⟨_, _, htr⟩
      · rw [htr]
        simp [failure_trace, calls_before_transfers, control_transfers, set_reports]
      · rw [htr]
        simp [calls_before_transfers, control_transfers, set_reports]
  · obtain ⟨hres, htr⟩ := probe_of_detach_failure usb bus_num dev_addr ho hauto hclaim h7
    refine ⟨?_, fun hy => absurd hy h7, fun _ => ⟨?_, hres⟩⟩
    · rw [htr]
      simp [failure_trace, calls_before_transfers]
    · rw [htr]
      simp [failure_trace, calls_before_transfers, control_transfers]

theorem probe_detach_not_found_proceeds_witness :
    handle_opened usb_sample 1 2 ∧
    usb_sample.libusb_detach_kernel_driver = LIBUSB_ERROR_NOT_FOUND ∧
    (control_transfers (probe usb_sample 1 2).trace).head? =
      some (Event.libusb_control_transfer 0x21 9 0x0308 2
        [0x08, 0x04, 0x1d, 0x01, 0xff, 0xff, 0x06, 0x2e] 8 250) :=
  ⟨⟨by decide, by decide, ⟨1, by decide, rfl⟩, by decide⟩, rfl,
    (probe_detach_not_found_proceeds usb_sample 1 2
      ⟨by decide, by decide, ⟨1, by decide, rfl⟩, by decide⟩
      (by decide) (by decide)).2.1 (Or.inr rfl)⟩

/-- C7: when the run reaches the control transfers, transfers 0 to `k - 1`
succeed and transfer `k` (one of 0 to 3) returns a negative value, `probe`
issues exactly the first `k + 1` transfers, writes the one diagnostic
`Failed to set report #k: <reason>`, and returns 1. -/
theorem probe_transfer_failure_aborts (usb : UsbLayer) (bus_num dev_addr : Nat)
    (hr : reaches_transfers usb bus_num dev_addr) (k : Nat) (hk : k < 4)
    (hpre : ∀ j, j < k → 0 ≤ usb.libusb_control_transfer j)
    (hfail : usb.libusb_control_transfer k < 0) :
    control_transfers (probe usb bus_num dev_addr).trace = set_reports.take (k + 1) ∧
    (control_transfers (probe usb bus_num dev_addr).trace).length = k + 1 ∧
    stderr_lines (probe usb bus_num dev_addr).trace =
      ["Failed to " ++ ("set report #" ++ toString k ++ ": " ++
        usb.libusb_strerror (usb.libusb_control_transfer k)) ++ "\n"] ∧
    (probe usb bus_num dev_addr).result = 1 := by
  obtain ⟨hres, htr⟩ := probe_of_transfer_failure usb bus_num dev_addr hr k hk hpre hfail
  rw [htr]
  have hk4 : k = 0 ∨ k = 1 ∨ k = 2 ∨ k = 3 := by omega
  refine ⟨?_, ?_, ?_, hres⟩
  · rcases hk4 with h | h | h | h <;> subst h <;>
      simp [failure_trace, calls_before_transfers, control_transfers, set_reports]
  · rcases hk4 with h | h | h | h <;> subst h <;>
      simp [failure_trace, calls_before_transfers, control_transfers, set_reports]
  · rcases hk4 with h | h | h | h <;> subst h <;>
      simp [failure_trace, failure_line, calls_before_transfers, stderr_lines, set_reports]

theorem probe_transfer_failure_aborts_witness :
    (control_transfers (probe usb_fail2 1 2).trace).length = 3 ∧
    stderr_lines (probe usb_fail2 1 2).trace = ["Failed to set report #2: Other error\n"] ∧
    (probe usb_fail2 1 2).result = 1 :=
  (probe_transfer_failure_aborts usb_fail2 1 2 usb_fail2_reaches_transfers 2 (by decide)
    (fun j hj => by
      have hj2 : j ≠ 2 := by omega
      simp [usb_fail2, hj2])
    (by decide)).2

/-- C10: a control transfer that returns any value that is not negative, a
short count below 8 included, is not a failure: when transfers 0 to `m - 1`
return such values the run has written nothing to `stderr` up to and including
the next transfer, which it issues, and when all four do `probe` returns 0 with
no diagnostic at all. -/
theorem probe_short_transfer_is_success (usb : UsbLayer) (bus_num dev_addr : Nat)
    (hr : reaches_transfers usb bus_num dev_addr) (m : Nat)
    (hok : ∀ j, j < m → 0 ≤ usb.libusb_control_transfer j) :
    (calls_before_transfers ⟨bus_num, dev_addr⟩ ++ set_reports.take (m + 1) <+:
      (probe usb bus_num dev_addr).trace) ∧
    (4 ≤ m →
      (probe usb bus_num dev_addr).result = 0 ∧
      stderr_lines (probe usb bus_num dev_addr).trace = [] ∧
      control_transfers (probe usb bus_num dev_addr).trace = set_reports) := by
  rcases probe_of_reaches_transfers usb bus_num dev_addr hr with
    ⟨k, hk, _, hfail, _, htr⟩ | ⟨_, hres, htr⟩
  · have hmk : m ≤ k := by
      by_contra hlt
      have := hok k (by omega)
      omega
    refine ⟨?_, fun h4 => by omega⟩
    rw [htr, failure_trace]
    refine List.IsPrefix.trans ?_ (List.prefix_append _ _)
    rw [List.prefix_append_right_inj]
    exact List.take_prefix_take_left _ (by omega)
  · rw [htr]
    refine ⟨?_, fun _ => ⟨hres, ?_, ?_⟩⟩
    · refine List.IsPrefix.trans ?_ (List.prefix_append _ _)
      rw [List.prefix_append_right_inj]
      exact List.take_prefix _ _
    · simp [stderr_lines, calls_before_transfers, set_reports]
    · simp [control_transfers, calls_before_transfers, set_reports]

theorem probe_short_transfer_is_success_witness :
    reaches_transfers usb_short 1 2 ∧
    (∀ j, j < 4 → 0 ≤ usb_short.libusb_control_transfer j ∧
      usb_short.libusb_control_transfer j < 8) ∧
    (probe usb_short 1 2).result = 0 ∧
    stderr_lines (probe usb_short 1 2).trace = [] ∧
    control_transfers (probe usb_short 1 2).trace = set_reports :=
  ⟨usb_short_reaches_transfers,
    fun j hj => ⟨Int.ofNat_nonneg j, by
      show (j : Int) < 8
      omega⟩,
    (probe_short_transfer_is_success usb_short 1 2 usb_short_reaches_transfers 4
      (fun j _ => Int.ofNat_nonneg j)).2 (le_refl 4)⟩

/-! ## `atoi` -/

theorem digitChar_isdigit :
    ∀ d, d < 10 → isdigit (Nat.digitChar d) = true ∧ (Nat.digitChar d).toNat - 48 = d := by
  decide

theorem isdigit_not_space_or_sign (c : Char) (h : isdigit c = true) :
    isspace c = false ∧ c ≠ '-' ∧ c ≠ '+' := by
  simp only [isdigit, Bool.and_eq_true, decide_eq_true_eq] at h
  refine ⟨?_, ?_, ?_⟩
  · simp only [isspace, Bool.or_eq_false_iff, Bool.and_eq_false_imp, decide_eq_true_eq,
      decide_eq_false_iff_not]
    omega
  · rintro rfl
    revert h
    decide
  · rintro rfl
    revert h
    decide

theorem parse_digits_of_not_digit (cs : List Char) (acc : Nat)
    (h : ∀ c, cs.head? = some c → isdigit c = false) : parse_digits cs acc = acc := by
  cases cs with
  | nil => rfl
  | cons c rest => simp [parse_digits, h c rfl]

theorem toDigitsCore_parse (fuel : Nat) :
    ∀ (n : Nat) (ds : List Char), n < fuel →
      ∃ pre : List Char, Nat.toDigitsCore 10 fuel n ds = pre ++ ds ∧
        (∀ c, pre.head? = some c → isdigit c = true) ∧ pre ≠ [] ∧
        ∀ (acc : Nat) (rest : List Char),
          parse_digits (pre ++ rest) acc = parse_digits rest (acc * 10 ^ pre.length + n) := by
  induction fuel with
  | zero =>
    intro n ds h
    omega
  | succ fuel ih =>
    intro n ds h
    obtain ⟨hd1, hd2⟩ := digitChar_isdigit (n % 10) (Nat.mod_lt n (by decide))
    by_cases h0 : n / 10 = 0
    · refine ⟨[Nat.digitChar (n % 10)], ?_, ?_, ?_, ?_⟩
      · simp [Nat.toDigitsCore, h0]
      · intro c hc
        simp only [List.head?_cons, Option.some.injEq] at hc
        rw [← hc]
        exact hd1
      · simp
      · intro acc rest
        have hn : n % 10 = n := by omega
        simp only [List.singleton_append, parse_digits, hd1, if_true, hd2, List.length_singleton,
          pow_one]
        congr 1
        omega
    · have hlt : n / 10 < fuel := by omega
      obtain ⟨pre, hpre, hhead, hne, hparse⟩ := ih (n / 10) (Nat.digitChar (n % 10) :: ds) hlt
      refine ⟨pre ++ [Nat.digitChar (n % 10)], ?_, ?_, ?_, ?_⟩
      · simp [Nat.toDigitsCore, h0, hpre]
      · intro c hc
        apply hhead c
        cases pre with
        | nil => exact absurd rfl hne
        | cons x xs => simpa using hc
      · simp
      · intro acc rest
        rw [List.append_assoc, hparse]
        simp only [List.singleton_append, parse_digits, hd1, if_true, hd2, List.length_append,
          List.length_singleton, pow_succ]
        congr 1
        have := Nat.div_add_mod n 10
        ring_nf
        omega

theorem skip_space_head_not_digit (cs : List Char)
    (h : ∀ c, c ∈ cs → isdigit c = false) :
    ∀ c, c ∈ skip_space cs → isdigit c = false := by
  induction cs with
  | nil => simp [skip_space]
  | cons x xs ih =>
    by_cases hx : isspace x = true
    · simp only [skip_space, hx, if_true]
      exact ih (fun c hc => h c (List.mem_cons_of_mem x hc))
    · simp only [skip_space, hx]
      exact h

theorem atoi_toString (n : Nat) (h : (n : Int) ≤ INT_MAX) : atoi (toString n) = some (n : Int) := by
  obtain ⟨pre, hpre, hhead, hne, hparse⟩ := toDigitsCore_parse (n + 1) n [] (Nat.lt_succ_self n)
  have hlist : (toString n).toList = pre := by
    show Nat.toDigitsCore 10 (n + 1) n [] = pre
    rw [hpre, List.append_nil]
  have hval : parse_digits pre 0 = n := by
    have := hparse 0 []
    simpa using this
  cases hp : pre with
  | nil => exact absurd hp hne
  | cons c rest =>
    obtain ⟨hs, hm, hpl⟩ := isdigit_not_space_or_sign c (hhead c (by rw [hp]; rfl))
    have hmin : INT_MIN ≤ (n : Int) := le_trans (by decide) (Int.ofNat_nonneg n)
    rw [hp] at hval
    simp only [atoi]
    rw [hlist, hp]
    simp [skip_space, hs, hm, hpl, hval, hmin, h]

theorem atoi_of_no_digit (text : String) (h : ∀ c, c ∈ text.toList → isdigit c = false) :
    atoi text = some 0 := by
  have hs := skip_space_head_not_digit text.toList h
  cases hc : skip_space text.toList with
  | nil =>
    simp only [atoi]
    rw [hc]
    simp [INT_MIN, INT_MAX]
  | cons c rest =>
    rw [hc] at hs
    have h1 : parse_digits (c :: rest) 0 = 0 :=
      parse_digits_of_not_digit _ _ (fun x hx => hs x (by
        simp only [List.head?_cons, Option.some.injEq] at hx
        rw [← hx]
        exact List.mem_cons_self c rest))
    have h2 : parse_digits rest 0 = 0 :=
      parse_digits_of_not_digit _ _ (fun x hx => hs x (by
        cases rest with
        | nil => simp at hx
        | cons y ys =>
          simp only [List.head?_cons, Option.some.injEq] at hx
          rw [← hx]
          simp))
    simp only [atoi, hc, h1, h2]
    split_ifs <;> simp_all [INT_MIN, INT_MAX]

theorem atoi_of_first_char (text : String) (c : Char) (rest : List Char)
    (htext : text.toList = c :: rest) (hs : isspace c = false) (hd : isdigit c = false)
    (hm : c ≠ '-') (hp : c ≠ '+') : atoi text = some 0 := by
  have h1 : parse_digits (c :: rest) 0 = 0 := by simp [parse_digits, hd]
  simp only [atoi]
  rw [htext]
  simp [skip_space, hs, hm, hp, h1, INT_MIN, INT_MAX]

theorem skip_space_append (ws l : List Char) (h : ∀ c, c ∈ ws → isspace c = true) :
    skip_space (ws ++ l) = skip_space l := by
  induction ws with
  | nil => rfl
  | cons x xs ih =>
    have hx : isspace x = true := h x (List.mem_cons_self x xs)
    simp only [List.cons_append, skip_space, hx, if_true]
    exact ih (fun c hc => h c (List.mem_cons_of_mem x hc))

theorem skip_space_of_head (l : List Char) (h : ∀ c, l.head? = some c → isspace c = false) :
    skip_space l = l := by
  cases l with
  | nil => rfl
  | cons c rest => simp [skip_space, h c rfl]

theorem parse_digits_append (ds rest : List Char) (hd : ∀ c, c ∈ ds → isdigit c = true)
    (hr : ∀ c, rest.head? = some c → isdigit c = false) :
    ∀ acc : Nat, parse_digits (ds ++ rest) acc =
      ds.foldl (fun a c => 10 * a + (c.toNat - 48)) acc := by
  induction ds with
  | nil =>
    intro acc
    exact parse_digits_of_not_digit rest acc hr
  | cons x xs ih =>
    intro acc
    have hx : isdigit x = true := hd x (List.mem_cons_self x xs)
    simp only [List.cons_append, parse_digits, hx, if_true, List.foldl_cons]
    exact ih (fun c hc => hd c (List.mem_cons_of_mem x hc)) _

theorem atoi_of_number (ws sign ds rest : List Char)
    (hws : ∀ c, c ∈ ws → isspace c = true)
    (hsign : sign = [] ∨ sign = ['-'] ∨ sign = ['+'])
    (hne : ds ≠ []) (hds : ∀ c, c ∈ ds → isdigit c = true)
    (hrest : ∀ c, rest.head? = some c → isdigit c = false)
    (hmin : INT_MIN ≤ signed_value sign ds) (hmax : signed_value sign ds ≤ INT_MAX) :
    atoi (String.mk (ws ++ sign ++ ds ++ rest)) = some (signed_value sign ds) := by
  have hval := parse_digits_append ds rest hds hrest 0
  simp only [atoi]
  have hlist : (String.mk (ws ++ sign ++ ds ++ rest)).toList = ws ++ (sign ++ (ds ++ rest)) := by
    show ws ++ sign ++ ds ++ rest = ws ++ (sign ++ (ds ++ rest))
    simp
  rw [hlist, skip_space_append ws _ hws]
  cases hd : ds with
  | nil => exact absurd hd hne
  | cons d ds2 =>
    obtain ⟨hs, hm, hp⟩ := isdigit_not_space_or_sign d (hds d (by rw [hd]; simp))
    rw [hd] at hval
    rcases hsign with h | h | h
    · subst h
      have hv : signed_value [] (d :: ds2) = (decimal_value (d :: ds2) : Int) := by
        simp [signed_value]
      rw [hd, hv] at hmin hmax
      rw [hv]
      simp only [List.nil_append, List.cons_append] at hval ⊢
      rw [skip_space_of_head _ (fun c hc => by
        simp only [List.head?_cons, Option.some.injEq] at hc
        rw [← hc]
        exact hs)]
      simp only [hm, hp, if_false, hval]
      simp only [decimal_value] at hmin hmax ⊢
      rw [if_pos ⟨hmin, hmax⟩]
    · subst h
      have hv : signed_value ['-'] (d :: ds2) = -(decimal_value (d :: ds2) : Int) := by
        simp [signed_value]
      rw [hd, hv] at hmin hmax
      rw [hv]
      rw [skip_space_of_head _ (fun c hc => by
        simp only [List.singleton_append, List.head?_cons, Option.some.injEq] at hc
        rw [← hc]
        decide)]
      simp only [List.singleton_append, if_true, hval]
      simp only [decimal_value] at hmin hmax ⊢
      rw [if_pos ⟨hmin, hmax⟩]
    · subst h
      have hv : signed_value ['+'] (d :: ds2) = (decimal_value (d :: ds2) : Int) := by
        simp [signed_value]
      rw [hd, hv] at hmin hmax
      rw [hv]
      rw [skip_space_of_head _ (fun c hc => by
        simp only [List.singleton_append, List.head?_cons, Option.some.injEq] at hc
        rw [← hc]
        decide)]
      have hpm : ¬ ('+' = '-') := by decide
      simp only [List.singleton_append, hpm, if_true, if_false, hval]
      simp only [decimal_value] at hmin hmax ⊢
      rw [if_pos ⟨hmin, hmax⟩]

theorem atoi_of_no_number (ws sign rest : List Char)
    (hws : ∀ c, c ∈ ws → isspace c = true)
    (hsign : sign = [] ∨ sign = ['-'] ∨ sign = ['+'])
    (hrest : ∀ c, rest.head? = some c → isdigit c = false)
    (hbare : sign = [] → ∀ c, rest.head? = some c → isspace c = false ∧ c ≠ '-' ∧ c ≠ '+') :
    atoi (String.mk (ws ++ sign ++ rest)) = some 0 := by
  have hval := parse_digits_of_not_digit rest 0 hrest
  simp only [atoi]
  have hlist : (String.mk (ws ++ sign ++ rest)).toList = ws ++ (sign ++ rest) := by
    show ws ++ sign ++ rest = ws ++ (sign ++ rest)
    simp
  rw [hlist, skip_space_append ws _ hws]
  rcases hsign with h | h | h
  · subst h
    have hb := hbare rfl
    rw [List.nil_append, skip_space_of_head _ (fun c hc => (hb c hc).1)]
    cases hr : rest with
    | nil => simp [INT_MIN, INT_MAX]
    | cons c cs =>
      obtain ⟨_, hm, hp⟩ := hb c (by rw [hr]; rfl)
      rw [hr] at hval
      simp [hm, hp, hval, INT_MIN, INT_MAX]
  · subst h
    rw [skip_space_of_head _ (fun c hc => by
      simp only [List.singleton_append, List.head?_cons, Option.some.injEq] at hc
      rw [← hc]
      decide)]
    simp [hval, INT_MIN, INT_MAX]
  · subst h
    rw [skip_space_of_head _ (fun c hc => by
      simp only [List.singleton_append, List.head?_cons, Option.some.injEq] at hc
      rw [← hc]
      decide)]
    have hpm : ¬ ('+' = '-') := by decide
    simp [hpm, hval, INT_MIN, INT_MAX]

theorem atoi_toString_int (z : Int) (hmin : INT_MIN ≤ z) (hmax : z ≤ INT_MAX) :
    atoi (toString z) = some z := by
  cases z with
  | ofNat n => exact atoi_toString n hmax
  | negSucc m =>
    obtain ⟨pre, hpre, hhead, hne, hparse⟩ :=
      toDigitsCore_parse (m + 1 + 1) (m + 1) [] (Nat.lt_succ_self (m + 1))
    have hlist : (toString (Int.negSucc m)).toList = '-' :: pre := by
      show ("-" ++ toString (m + 1)).toList = '-' :: pre
      rw [String.toList, String.data_append]
      show '-' :: Nat.toDigitsCore 10 (m + 1 + 1) (m + 1) [] = '-' :: pre
      rw [hpre, List.append_nil]
    have hval : parse_digits pre 0 = m + 1 := by
      have := hparse 0 []
      simpa using this
    have hneg : -((m + 1 : Nat) : Int) = Int.negSucc m := by
      rw [Int.negSucc_eq]
      push_cast
      rfl
    simp only [atoi]
    rw [hlist, skip_space_of_head _ (fun c hc => by
      simp only [List.head?_cons, Option.some.injEq] at hc
      rw [← hc]
      decide)]
    simp only [if_true, hval, hneg]
    simp [hmin, hmax]

theorem to_uint8_natCast (n : Nat) : to_uint8 (n : Int) = n % 256 := by
  unfold to_uint8
  omega

/-! ## The claims about `main` -/

theorem main_calls_probe (usb : UsbLayer) (prog a b : String) (x y : Nat)
    (ha : probe_arg a = some x) (hb : probe_arg b = some y) :
    main usb [prog, a, b] =
      some { status := (probe usb x y).result, trace := (probe usb x y).trace,
             probe_args := some (x, y) } := by
  simp [main, ha, hb]

/-- C8: with `argc` = 0 the first statement of `main` applies `rindex` to
the null pointer `argv[0]`, before `argc` is looked at, so nothing is printed;
with any other `argc` that is not 3, `main` prints
`Invalid number of arguments` and the usage text, exits with status 1 and does
not call `probe`; and `probe` is called only when `argc` is 3. -/
theorem main_argument_count :
    (∀ usb : UsbLayer, main usb [] = none) ∧
    (∀ (usb : UsbLayer) (argv0 : String) (rest : List String),
      (argv0 :: rest).length ≠ 3 →
      main usb (argv0 :: rest) =
        some { status := 1,
               trace := [Event.stderr "Invalid number of arguments\n",
                         Event.stderr (usage (program_name argv0))],
               probe_args := none }) ∧
    (∀ (usb : UsbLayer) (argv : List String) (r : MainResult),
      main usb argv = some r → r.probe_args ≠ none → argv.length = 3) := by
  refine ⟨fun _ => rfl, ?_, ?_⟩
  · intro usb argv0 rest h
    simp only [main, h, ne_eq, not_false_eq_true, if_true]
  · intro usb argv r h hne
    by_contra hlen
    cases argv with
    | nil => simp [main] at h
    | cons argv0 rest =>
      simp only [main, hlen, ne_eq, not_false_eq_true, if_true, Option.some.injEq] at h
      rw [← h] at hne
      exact hne rfl

/-- C9, as the code has it.  Every argument text is some white space, an
optional sign, and then either a run of decimal digits followed by something
that is not a digit, or no digit at all.  In the first case, when the signed
number `v` the text denotes fits `int`, `main` passes `v` modulo 256 to
`probe`: `v` itself for `v` in 0..255, but 44 for `300` and 255 for `-1`.  In
the second case (non-numeric text) it passes 0.  In particular the decimal
text of every `int` `z` is passed as `z` modulo 256. -/
theorem main_argument_conversion :
    (∀ ws sign ds rest : List Char,
      (∀ c, c ∈ ws → isspace c = true) →
      (sign = [] ∨ sign = ['-'] ∨ sign = ['+']) →
      ds ≠ [] → (∀ c, c ∈ ds → isdigit c = true) →
      (∀ c, rest.head? = some c → isdigit c = false) →
      INT_MIN ≤ signed_value sign ds → signed_value sign ds ≤ INT_MAX →
      probe_arg (String.mk (ws ++ sign ++ ds ++ rest)) =
        some (signed_value sign ds % 256).toNat) ∧
    (∀ ws sign rest : List Char,
      (∀ c, c ∈ ws → isspace c = true) →
      (sign = [] ∨ sign = ['-'] ∨ sign = ['+']) →
      (∀ c, rest.head? = some c → isdigit c = false) →
      (sign = [] → ∀ c, rest.head? = some c → isspace c = false ∧ c ≠ '-' ∧ c ≠ '+') →
      probe_arg (String.mk (ws ++ sign ++ rest)) = some 0) ∧
    (∀ text : String, (∀ c, c ∈ text.toList → isdigit c = false) →
      probe_arg text = some 0) ∧
    (∀ (text : String) (c : Char) (rest : List Char), text.toList = c :: rest →
      isspace c = false → isdigit c = false → c ≠ '-' → c ≠ '+' →
      probe_arg text = some 0) ∧
    (∀ z : Int, INT_MIN ≤ z → z ≤ INT_MAX →
      probe_arg (toString z) = some (z % 256).toNat) ∧
    (∀ n : Nat, (n : Int) ≤ INT_MAX → probe_arg (toString n) = some (n % 256)) ∧
    (∀ n : Nat, n ≤ 255 → probe_arg (toString n) = some n) ∧
    (probe_arg "-1" = some 255 ∧ probe_arg "256" = some 0 ∧
      probe_arg " +7x" = some 7 ∧ probe_arg "-x1" = some 0 ∧ probe_arg " x1" = some 0 ∧
      probe_arg "\t\n\x0b\x0c\r 12" = some 12 ∧ probe_arg "007" = some 7) ∧
    (∀ (usb : UsbLayer) (prog a b : String) (x y : Nat),
      probe_arg a = some x → probe_arg b = some y →
      main usb [prog, a, b] =
        some { status := (probe usb x y).result, trace := (probe usb x y).trace,
               probe_args := some (x, y) }) := by
  refine ⟨?_, ?_, ?_, ?_, ?_, ?_, ?_, ?_, ?_⟩
  · intro ws sign ds rest hws hsign hne hds hrest hmin hmax
    rw [probe_arg, atoi_of_number ws sign ds rest hws hsign hne hds hrest hmin hmax]
    rfl
  · intro ws sign rest hws hsign hrest hbare
    rw [probe_arg, atoi_of_no_number ws sign rest hws hsign hrest hbare]
    rfl
  · intro text h
    simp [probe_arg, atoi_of_no_digit text h, to_uint8]
  · intro text c rest htext hs hd hm hp
    simp [probe_arg, atoi_of_first_char text c rest htext hs hd hm hp, to_uint8]
  · intro z hmin hmax
    rw [probe_arg, atoi_toString_int z hmin hmax]
    rfl
  · intro n h
    simp [probe_arg, atoi_toString n h, to_uint8_natCast]
  · intro n h
    have hmax : (n : Int) ≤ INT_MAX := by
      unfold INT_MAX
      omega
    have hmod : n % 256 = n := by omega
    simp [probe_arg, atoi_toString n hmax, to_uint8_natCast, hmod]
  · decide
  · intro usb prog a b x y ha hb
    exact main_calls_probe usb prog a b x y ha hb

/-- C9 as stated fails: the text `300` denotes a number outside 0..255, and
`main` passes 44 to `probe` for it, not 0. -/
theorem main_argument_300_not_zero :
    probe_arg "300" = some 44 ∧ probe_arg "300" ≠ some 0 ∧
    (main usb_sample ["10moons-probe", "300", "2"]).map MainResult.probe_args =
      some (some (44, 2)) := by
  refine ⟨by decide, by decide, ?_⟩
  have h := main_calls_probe usb_sample "10moons-probe" "300" "2" 44 2
    (by decide) (by decide)
  rw [h]
  rfl

end TenMoons
